import Mathlib

/-!
Shallow embedding of the pricing/estimation engine of `pave-ai-estimator`
(`src/lib/calculationEngine.ts`, with the legacy quick-estimate formula from
`src/components/MeasurementSidebar.tsx`), together with theorems checking the
natural-language specification against it.

Modelling conventions:

* JavaScript `number` is modelled by `ℚ` (exact rational arithmetic; IEEE-754
  rounding is not modelled).
* `Math.ceil` is `Int.ceil`, cast back to `ℚ` where the source keeps the value
  as a number.
* `Math.sqrt` is irrational-valued on most inputs, so it cannot be embedded
  exactly in `ℚ`; the engine consumes it only through `estimatedPerimeter`,
  which feeds two `Math.ceil` roundings to whole units.  We model it by the
  monotone integer-precision under-approximation `ratSqrt` (the integer square
  root of the floor).  All concrete inputs used in theorems below are chosen so
  that the two ceilinged quantities agree with the exact square root.
* Methods that `throw` are modelled as `Option`-returning functions (`none` =
  exception propagated to the caller, no value produced).
* `new Date()` / `Date.now()` are modelled by an explicit clock parameter
  `now : ℚ` (milliseconds), threaded into the two timestamp fields.
-/

namespace PaveEstimator

/-- Fuel-driven linear search for the integer square root of `n`: the largest
`k` reachable within `fuel` increments with `(k+1)² ≤ n`.  (A structurally
recursive stand-in for `Nat.sqrt`, which is defined by well-founded recursion
and does not evaluate inside the kernel.) -/
def isqrtGo (n : ℕ) : ℕ → ℕ → ℕ
  | 0, k => k
  | fuel + 1, k => if (k + 1) * (k + 1) ≤ n then isqrtGo n fuel (k + 1) else k

/-- Integer square root (proved equal to `Nat.sqrt` below). -/
def isqrt (n : ℕ) : ℕ := isqrtGo n n 0

/-- Model of `Math.sqrt` on `ℚ`: the integer square root of the floor, a
monotone under-approximation of the exact square root (see module comment). -/
def ratSqrt (q : ℚ) : ℚ := (isqrt ⌊q⌋.toNat : ℚ)

/-- Model of JavaScript's `toLowerCase()` (ASCII case folding, applied
character by character; Lean's builtin `String.toLower` is extensionally the
same map but is not kernel-reducible). -/
def jsToLower (s : String) : String := ⟨s.data.map Char.toLower⟩

/-- `sealer` entry of `MaterialPricing`. -/
structure SealerSpec where
  pricePerGallon : ℚ
  coverageRate : ℚ
  supplier : String
  deriving DecidableEq, Repr

/-- `sand` entry of `MaterialPricing`. -/
structure SandSpec where
  pricePerBag : ℚ
  bagsPerGallon : ℚ
  supplier : String
  deriving DecidableEq, Repr

/-- `fastDry` entry of `MaterialPricing`. -/
structure FastDrySpec where
  pricePerBucket : ℚ
  bucketsPerGallon : ℚ
  supplier : String
  deriving DecidableEq, Repr

/-- `prepSeal` entry of `MaterialPricing`. -/
structure PrepSealSpec where
  pricePerBucket : ℚ
  bucketsPerProject : ℚ
  supplier : String
  deriving DecidableEq, Repr

/-- `crackFiller` entry of `MaterialPricing`. -/
structure CrackFillerSpec where
  pricePerBox : ℚ
  coveragePerBox : ℚ
  supplier : String
  deriving DecidableEq, Repr

/-- `propane` entry of `MaterialPricing`. -/
structure PropaneSpec where
  pricePerTank : ℚ
  tanksPerLinearFoot : ℚ
  supplier : String
  deriving DecidableEq, Repr

/-- `MaterialPricing` interface. -/
structure MaterialPricing where
  sealer : SealerSpec
  sand : SandSpec
  fastDry : FastDrySpec
  prepSeal : PrepSealSpec
  crackFiller : CrackFillerSpec
  propane : PropaneSpec
  deriving DecidableEq, Repr

/-- `LaborRates` interface (`skillLevel` kept as its string literal). -/
structure LaborRates where
  hourlyRate : ℚ
  hoursPerSqFt : ℚ
  minimumHours : ℚ
  overtimeMultiplier : ℚ
  skillLevel : String
  deriving DecidableEq, Repr

/-- `fuel` entry of `RegionalPricing`. -/
structure FuelInfo where
  pricePerGallon : ℚ
  mpg : ℚ
  roundTripDistance : ℚ
  deriving DecidableEq, Repr

/-- `businessCosts` entry of `RegionalPricing`. -/
structure BusinessCosts where
  insuranceRate : ℚ
  equipmentDepreciation : ℚ
  permitCosts : ℚ
  deriving DecidableEq, Repr

/-- `RegionalPricing` interface. -/
structure RegionalPricing where
  region : String
  state : String
  taxRate : ℚ
  materials : MaterialPricing
  labor : LaborRates
  fuel : FuelInfo
  businessCosts : BusinessCosts
  deriving DecidableEq, Repr

/-- One `{threshold, discount}` entry of a volume-discount schedule. -/
structure VolumeDiscount where
  threshold : ℚ
  discount : ℚ
  deriving DecidableEq, Repr

/-- `residential` entry of `PricingTiers` (no volume discounts in the source
interface). -/
structure ResidentialTier where
  markup : ℚ
  minimumCharge : ℚ
  deriving DecidableEq, Repr

/-- `commercial` / `industrial` entries of `PricingTiers`. -/
structure VolumeTier where
  markup : ℚ
  minimumCharge : ℚ
  volumeDiscounts : List VolumeDiscount
  deriving DecidableEq, Repr

/-- `PricingTiers` interface. -/
structure PricingTiers where
  residential : ResidentialTier
  commercial : VolumeTier
  industrial : VolumeTier
  deriving DecidableEq, Repr

/-- The `jobType` string union `'driveway' | 'parking-lot'`. -/
inductive JobType where
  | driveway
  | parkingLot
  deriving DecidableEq, Repr

/-- The `customerType` string union
`'residential' | 'commercial' | 'industrial'`. -/
inductive CustomerType where
  | residential
  | commercial
  | industrial
  deriving DecidableEq, Repr

/-- `DEFAULT_REGIONAL_PRICING['virginia']`. -/
def virginiaPricing : RegionalPricing :=
  { region := "Virginia"
    state := "VA"
    taxRate := 0.053
    materials :=
      { sealer := { pricePerGallon := 3.65, coverageRate := 7.69, supplier := "SealMaster" }
        sand := { pricePerBag := 10.00, bagsPerGallon := 0.02, supplier := "Local Supplier" }
        fastDry := { pricePerBucket := 50.00, bucketsPerGallon := 0.0067, supplier := "SealMaster" }
        prepSeal := { pricePerBucket := 50.00, bucketsPerProject := 1, supplier := "SealMaster" }
        crackFiller := { pricePerBox := 44.99, coveragePerBox := 100, supplier := "SealMaster" }
        propane := { pricePerTank := 10.00, tanksPerLinearFoot := 0.005, supplier := "Local Gas Station" } }
    labor :=
      { hourlyRate := 12.00, hoursPerSqFt := 0.001, minimumHours := 2
        overtimeMultiplier := 1.5, skillLevel := "intermediate" }
    fuel := { pricePerGallon := 3.50, mpg := 8, roundTripDistance := 90 }
    businessCosts :=
      { insuranceRate := 0.02, equipmentDepreciation := 25.00, permitCosts := 0.00 } }

/-- `DEFAULT_REGIONAL_PRICING['north-carolina']`. -/
def northCarolinaPricing : RegionalPricing :=
  { region := "North Carolina"
    state := "NC"
    taxRate := 0.0475
    materials :=
      { sealer := { pricePerGallon := 3.85, coverageRate := 7.69, supplier := "SealMaster" }
        sand := { pricePerBag := 12.00, bagsPerGallon := 0.02, supplier := "Local Supplier" }
        fastDry := { pricePerBucket := 55.00, bucketsPerGallon := 0.0067, supplier := "SealMaster" }
        prepSeal := { pricePerBucket := 55.00, bucketsPerProject := 1, supplier := "SealMaster" }
        crackFiller := { pricePerBox := 47.99, coveragePerBox := 100, supplier := "SealMaster" }
        propane := { pricePerTank := 12.00, tanksPerLinearFoot := 0.005, supplier := "Local Gas Station" } }
    labor :=
      { hourlyRate := 14.00, hoursPerSqFt := 0.001, minimumHours := 2
        overtimeMultiplier := 1.5, skillLevel := "intermediate" }
    fuel := { pricePerGallon := 3.65, mpg := 8, roundTripDistance := 80 }
    businessCosts :=
      { insuranceRate := 0.025, equipmentDepreciation := 30.00, permitCosts := 25.00 } }

/-- `DEFAULT_REGIONAL_PRICING` as an insertion-ordered key/value list (the
JavaScript object keyed by lowercase region identifier). -/
def DEFAULT_REGIONAL_PRICING : List (String × RegionalPricing) :=
  [("virginia", virginiaPricing), ("north-carolina", northCarolinaPricing)]

/-- `PRICING_TIERS`. -/
def PRICING_TIERS : PricingTiers :=
  { residential := { markup := 0.25, minimumCharge := 200.00 }
    commercial :=
      { markup := 0.20, minimumCharge := 500.00
        volumeDiscounts :=
          [ { threshold := 5000, discount := 0.05 }
          , { threshold := 10000, discount := 0.10 }
          , { threshold := 25000, discount := 0.15 } ] }
    industrial :=
      { markup := 0.15, minimumCharge := 1000.00
        volumeDiscounts :=
          [ { threshold := 10000, discount := 0.05 }
          , { threshold := 25000, discount := 0.10 }
          , { threshold := 50000, discount := 0.20 } ] } }

/-- One material line item of a `DetailedEstimate`. -/
structure MaterialLine where
  quantity : ℚ
  unitCost : ℚ
  totalCost : ℚ
  supplier : String
  deriving DecidableEq, Repr

/-- `materials` entry of `DetailedEstimate`. -/
structure MaterialsBreakdown where
  sealer : MaterialLine
  sand : MaterialLine
  fastDry : MaterialLine
  prepSeal : MaterialLine
  crackFiller : MaterialLine
  propane : MaterialLine
  deriving DecidableEq, Repr

/-- `labor` entry of `DetailedEstimate`. -/
structure LaborBreakdown where
  hours : ℚ
  rate : ℚ
  totalCost : ℚ
  skillLevel : String
  deriving DecidableEq, Repr

/-- `expenses.fuel` entry of `DetailedEstimate`. -/
structure FuelExpense where
  distance : ℚ
  rate : ℚ
  totalCost : ℚ
  deriving DecidableEq, Repr

/-- `expenses.insurance` entry of `DetailedEstimate`. -/
structure InsuranceExpense where
  rate : ℚ
  totalCost : ℚ
  deriving DecidableEq, Repr

/-- `expenses.equipment` / `expenses.permits` entries of `DetailedEstimate`. -/
structure FlatExpense where
  totalCost : ℚ
  deriving DecidableEq, Repr

/-- `expenses` entry of `DetailedEstimate`. -/
structure ExpensesBreakdown where
  fuel : FuelExpense
  insurance : InsuranceExpense
  equipment : FlatExpense
  permits : FlatExpense
  deriving DecidableEq, Repr

/-- `pricing` entry of `DetailedEstimate`. -/
structure PricingBreakdown where
  subtotal : ℚ
  markup : ℚ
  markupAmount : ℚ
  beforeTax : ℚ
  taxRate : ℚ
  taxAmount : ℚ
  finalTotal : ℚ
  pricePerSqFt : ℚ
  deriving DecidableEq, Repr

/-- `profitAnalysis` entry of `DetailedEstimate`. -/
structure ProfitAnalysis where
  grossProfit : ℚ
  profitMargin : ℚ
  breakEvenPoint : ℚ
  deriving DecidableEq, Repr

/-- `projectInfo` entry of `DetailedEstimate`; the two `Date` fields are
modelled as rational millisecond timestamps. -/
structure ProjectInfo where
  area : ℚ
  jobType : JobType
  address : String
  region : String
  estimateDate : ℚ
  validUntil : ℚ
  deriving DecidableEq, Repr

/-- `DetailedEstimate` interface. -/
structure DetailedEstimate where
  projectInfo : ProjectInfo
  materials : MaterialsBreakdown
  labor : LaborBreakdown
  expenses : ExpensesBreakdown
  pricing : PricingBreakdown
  profitAnalysis : ProfitAnalysis
  deriving DecidableEq, Repr

/-- `const sealerGallons = area / pricing.materials.sealer.coverageRate`. -/
def sealerGallons (p : RegionalPricing) (area : ℚ) : ℚ :=
  area / p.materials.sealer.coverageRate

/-- `const estimatedPerimeter = Math.sqrt(area) * 4` (square approximation). -/
def estimatedPerimeter (area : ℚ) : ℚ := ratSqrt area * 4

/-- The `materials` block of `calculateDetailedEstimate`. -/
def computeMaterials (p : RegionalPricing) (area : ℚ) : MaterialsBreakdown :=
  { sealer :=
      { quantity := sealerGallons p area
        unitCost := p.materials.sealer.pricePerGallon
        totalCost := sealerGallons p area * p.materials.sealer.pricePerGallon
        supplier := p.materials.sealer.supplier }
    sand :=
      { quantity := (⌈sealerGallons p area * p.materials.sand.bagsPerGallon⌉ : ℚ)
        unitCost := p.materials.sand.pricePerBag
        totalCost := (⌈sealerGallons p area * p.materials.sand.bagsPerGallon⌉ : ℚ) *
          p.materials.sand.pricePerBag
        supplier := p.materials.sand.supplier }
    fastDry :=
      { quantity := (⌈sealerGallons p area * p.materials.fastDry.bucketsPerGallon⌉ : ℚ)
        unitCost := p.materials.fastDry.pricePerBucket
        totalCost := (⌈sealerGallons p area * p.materials.fastDry.bucketsPerGallon⌉ : ℚ) *
          p.materials.fastDry.pricePerBucket
        supplier := p.materials.fastDry.supplier }
    prepSeal :=
      { quantity := p.materials.prepSeal.bucketsPerProject
        unitCost := p.materials.prepSeal.pricePerBucket
        totalCost := p.materials.prepSeal.bucketsPerProject * p.materials.prepSeal.pricePerBucket
        supplier := p.materials.prepSeal.supplier }
    crackFiller :=
      { quantity := (⌈estimatedPerimeter area / p.materials.crackFiller.coveragePerBox⌉ : ℚ)
        unitCost := p.materials.crackFiller.pricePerBox
        totalCost := (⌈estimatedPerimeter area / p.materials.crackFiller.coveragePerBox⌉ : ℚ) *
          p.materials.crackFiller.pricePerBox
        supplier := p.materials.crackFiller.supplier }
    propane :=
      { quantity := (⌈estimatedPerimeter area * p.materials.propane.tanksPerLinearFoot⌉ : ℚ)
        unitCost := p.materials.propane.pricePerTank
        totalCost := (⌈estimatedPerimeter area * p.materials.propane.tanksPerLinearFoot⌉ : ℚ) *
          p.materials.propane.pricePerTank
        supplier := p.materials.propane.supplier } }

/-- `Object.values(materials).reduce((sum, mat) => sum + mat.totalCost, 0)`
(insertion order: sealer, sand, fastDry, prepSeal, crackFiller, propane). -/
def materialsTotal (m : MaterialsBreakdown) : ℚ :=
  m.sealer.totalCost + m.sand.totalCost + m.fastDry.totalCost + m.prepSeal.totalCost +
    m.crackFiller.totalCost + m.propane.totalCost

/-- `const laborHours = Math.max(area * hoursPerSqFt, minimumHours)`. -/
def laborHours (p : RegionalPricing) (area : ℚ) : ℚ :=
  max (area * p.labor.hoursPerSqFt) p.labor.minimumHours

/-- The `labor` block of `calculateDetailedEstimate`. -/
def computeLabor (p : RegionalPricing) (area : ℚ) : LaborBreakdown :=
  { hours := laborHours p area
    rate := p.labor.hourlyRate
    totalCost := laborHours p area * p.labor.hourlyRate
    skillLevel := p.labor.skillLevel }

/-- `const subtotalForExpenses = Object.values(materials).reduce(...) + labor.totalCost`. -/
def subtotalForExpenses (p : RegionalPricing) (area : ℚ) : ℚ :=
  materialsTotal (computeMaterials p area) + (computeLabor p area).totalCost

/-- The `expenses` block of `calculateDetailedEstimate`
(`fuelGallons = roundTripDistance / mpg`). -/
def computeExpenses (p : RegionalPricing) (area : ℚ) : ExpensesBreakdown :=
  { fuel :=
      { distance := p.fuel.roundTripDistance
        rate := p.fuel.pricePerGallon
        totalCost := p.fuel.roundTripDistance / p.fuel.mpg * p.fuel.pricePerGallon }
    insurance :=
      { rate := p.businessCosts.insuranceRate
        totalCost := subtotalForExpenses p area * p.businessCosts.insuranceRate }
    equipment := { totalCost := p.businessCosts.equipmentDepreciation }
    permits := { totalCost := p.businessCosts.permitCosts } }

/-- `const subtotal = subtotalForExpenses + fuel + insurance + equipment + permits`. -/
def subtotal (p : RegionalPricing) (area : ℚ) : ℚ :=
  subtotalForExpenses p area + (computeExpenses p area).fuel.totalCost +
    (computeExpenses p area).insurance.totalCost + (computeExpenses p area).equipment.totalCost +
    (computeExpenses p area).permits.totalCost

/-- The comparator `(a, b) => b.threshold - a.threshold` (descending by
threshold). -/
def byThresholdDesc (a b : VolumeDiscount) : Prop := b.threshold ≤ a.threshold

instance : DecidableRel byThresholdDesc :=
  fun a b => inferInstanceAs (Decidable (b.threshold ≤ a.threshold))

instance : IsTotal VolumeDiscount byThresholdDesc :=
  ⟨fun a b => le_total b.threshold a.threshold⟩

instance : IsTrans VolumeDiscount byThresholdDesc :=
  ⟨fun _ _ _ h1 h2 => le_trans h2 h1⟩

/-- `tier.volumeDiscounts.filter(d => area >= d.threshold)
      .sort((a, b) => b.threshold - a.threshold)[0]`:
qualifying discounts sorted by descending threshold, first element if any.
(The sort algorithm is irrelevant up to tie order; an insertion sort by the
same comparator is used here.) -/
def applicableDiscount (discounts : List VolumeDiscount) (area : ℚ) : Option VolumeDiscount :=
  (List.insertionSort byThresholdDesc
    (discounts.filter (fun d => decide (d.threshold ≤ area)))).head?

/-- `tier.markup` for the selected customer type. -/
def baseMarkupOf (tiers : PricingTiers) : CustomerType → ℚ
  | .residential => tiers.residential.markup
  | .commercial => tiers.commercial.markup
  | .industrial => tiers.industrial.markup

/-- `tier.minimumCharge` for the selected customer type. -/
def minimumChargeOf (tiers : PricingTiers) : CustomerType → ℚ
  | .residential => tiers.residential.minimumCharge
  | .commercial => tiers.commercial.minimumCharge
  | .industrial => tiers.industrial.minimumCharge

/-- `tier.volumeDiscounts` for the tiers that have them (the residential tier
has no such field in the source and the engine never reads it there). -/
def volumeDiscountsOf (tiers : PricingTiers) : CustomerType → List VolumeDiscount
  | .residential => []
  | .commercial => tiers.commercial.volumeDiscounts
  | .industrial => tiers.industrial.volumeDiscounts

/-- The `effectiveMarkup` computation: start from `tier.markup`; for
non-residential customers, if a qualifying volume discount exists, multiply by
`(1 - discount)`. -/
def effectiveMarkup (tiers : PricingTiers) (customerType : CustomerType) (area : ℚ) : ℚ :=
  match customerType with
  | .residential => tiers.residential.markup
  | .commercial =>
    match applicableDiscount tiers.commercial.volumeDiscounts area with
    | some d => tiers.commercial.markup * (1 - d.discount)
    | none => tiers.commercial.markup
  | .industrial =>
    match applicableDiscount tiers.industrial.volumeDiscounts area with
    | some d => tiers.industrial.markup * (1 - d.discount)
    | none => tiers.industrial.markup

/-- The `pricing` block of `calculateDetailedEstimate`. -/
def computePricing (p : RegionalPricing) (tiers : PricingTiers) (customerType : CustomerType)
    (area : ℚ) : PricingBreakdown :=
  { subtotal := subtotal p area
    markup := effectiveMarkup tiers customerType area
    markupAmount := subtotal p area * effectiveMarkup tiers customerType area
    beforeTax := subtotal p area + subtotal p area * effectiveMarkup tiers customerType area
    taxRate := p.taxRate
    taxAmount := (subtotal p area + subtotal p area * effectiveMarkup tiers customerType area) *
      p.taxRate
    finalTotal :=
      max ((subtotal p area + subtotal p area * effectiveMarkup tiers customerType area) +
        (subtotal p area + subtotal p area * effectiveMarkup tiers customerType area) * p.taxRate)
        (minimumChargeOf tiers customerType)
    pricePerSqFt :=
      max ((subtotal p area + subtotal p area * effectiveMarkup tiers customerType area) +
        (subtotal p area + subtotal p area * effectiveMarkup tiers customerType area) * p.taxRate)
        (minimumChargeOf tiers customerType) / area }

/-- The `profitAnalysis` block of `calculateDetailedEstimate`. -/
def computeProfit (p : RegionalPricing) (tiers : PricingTiers) (customerType : CustomerType)
    (area : ℚ) : ProfitAnalysis :=
  { grossProfit := (computePricing p tiers customerType area).markupAmount
    profitMargin := (computePricing p tiers customerType area).markupAmount /
      (computePricing p tiers customerType area).finalTotal * 100
    breakEvenPoint := (computePricing p tiers customerType area).subtotal }

/-- Assembly of the returned `DetailedEstimate` once the regional pricing
record has been resolved (`now` models the `Date.now()` clock reading;
`validUntil` is 30 days later in milliseconds). -/
def computeEstimate (p : RegionalPricing) (tiers : PricingTiers) (area : ℚ) (jobType : JobType)
    (address : String) (customerType : CustomerType) (now : ℚ) : DetailedEstimate :=
  { projectInfo :=
      { area := area
        jobType := jobType
        address := address
        region := p.region
        estimateDate := now
        validUntil := now + 30 * 24 * 60 * 60 * 1000 }
    materials := computeMaterials p area
    labor := computeLabor p area
    expenses := computeExpenses p area
    pricing := computePricing p tiers customerType area
    profitAnalysis := computeProfit p tiers customerType area }

/-- The engine's state: `this.regionalPricing` (an insertion-ordered string-keyed
object) and `this.pricingTiers`. -/
structure AdvancedCalculationEngine where
  regionalPricing : List (String × RegionalPricing)
  pricingTiers : PricingTiers
  deriving DecidableEq, Repr

/-- The exported singleton `calculationEngine = new AdvancedCalculationEngine()`:
constructor copies of the two default catalogs. -/
def calculationEngine : AdvancedCalculationEngine :=
  { regionalPricing := DEFAULT_REGIONAL_PRICING, pricingTiers := PRICING_TIERS }

/-- `calculateDetailedEstimate(area, jobType, address, region, customerType)`:
resolves `this.regionalPricing[region.toLowerCase()]`, throws if absent
(modelled as `none`), otherwise computes the estimate. -/
def calculateDetailedEstimate (e : AdvancedCalculationEngine) (area : ℚ) (jobType : JobType)
    (address : String) (region : String) (customerType : CustomerType) (now : ℚ) :
    Option DetailedEstimate :=
  (e.regionalPricing.lookup (jsToLower region)).map
    (fun p => computeEstimate p e.pricingTiers area jobType address customerType now)

/-- `sealer` entry of the quick-estimate / legacy `EstimateData` shape. -/
structure SealerQuick where
  gallons : ℚ
  cost : ℚ
  deriving DecidableEq, Repr

/-- `sand` entry of `EstimateData`. -/
structure SandQuick where
  bags : ℚ
  cost : ℚ
  deriving DecidableEq, Repr

/-- `fastDry` / `prepSeal` entries of `EstimateData`. -/
structure BucketsQuick where
  buckets : ℚ
  cost : ℚ
  deriving DecidableEq, Repr

/-- `crackFiller` entry of `EstimateData`. -/
structure BoxesQuick where
  boxes : ℚ
  cost : ℚ
  deriving DecidableEq, Repr

/-- `propane` entry of `EstimateData`. -/
structure TanksQuick where
  tanks : ℚ
  cost : ℚ
  deriving DecidableEq, Repr

/-- `materials` entry of `EstimateData`. -/
structure QuickMaterials where
  sealer : SealerQuick
  sand : SandQuick
  fastDry : BucketsQuick
  prepSeal : BucketsQuick
  crackFiller : BoxesQuick
  propane : TanksQuick
  deriving DecidableEq, Repr

/-- `labor` entry of `EstimateData`. -/
structure LaborQuick where
  hours : ℚ
  cost : ℚ
  deriving DecidableEq, Repr

/-- `fuel` entry of `EstimateData`. -/
structure FuelQuick where
  distance : ℚ
  cost : ℚ
  deriving DecidableEq, Repr

/-- The `EstimateData` shape shared by `calculateQuickEstimate`'s return value
and `MeasurementSidebar`'s `calculateEstimate`. -/
structure EstimateData where
  area : ℚ
  materials : QuickMaterials
  labor : LaborQuick
  fuel : FuelQuick
  subtotal : ℚ
  markup25 : ℚ
  roundedUp : ℚ
  finalTotal : ℚ
  deriving DecidableEq, Repr

/-- `calculateQuickEstimate(area, region)`: delegates to
`calculateDetailedEstimate(area, 'driveway', '', region)` (customer type
defaulting to `'residential'`) and repackages the result;
`roundedUp = Math.ceil(beforeTax / 10) * 10`. -/
def calculateQuickEstimate (e : AdvancedCalculationEngine) (area : ℚ) (region : String)
    (now : ℚ) : Option EstimateData :=
  (calculateDetailedEstimate e area .driveway "" region .residential now).map
    fun (detailed : DetailedEstimate) =>
    { area := area
      materials :=
        { sealer :=
            { gallons := detailed.materials.sealer.quantity
              cost := detailed.materials.sealer.totalCost }
          sand :=
            { bags := detailed.materials.sand.quantity
              cost := detailed.materials.sand.totalCost }
          fastDry :=
            { buckets := detailed.materials.fastDry.quantity
              cost := detailed.materials.fastDry.totalCost }
          prepSeal :=
            { buckets := detailed.materials.prepSeal.quantity
              cost := detailed.materials.prepSeal.totalCost }
          crackFiller :=
            { boxes := detailed.materials.crackFiller.quantity
              cost := detailed.materials.crackFiller.totalCost }
          propane :=
            { tanks := detailed.materials.propane.quantity
              cost := detailed.materials.propane.totalCost } }
      labor := { hours := detailed.labor.hours, cost := detailed.labor.totalCost }
      fuel := { distance := detailed.expenses.fuel.distance
                cost := detailed.expenses.fuel.totalCost }
      subtotal := detailed.pricing.subtotal
      markup25 := detailed.pricing.beforeTax
      roundedUp := ((Int.ceil (detailed.pricing.beforeTax / 10) : ℤ) : ℚ) * 10
      finalTotal := detailed.pricing.finalTotal }

/-- The `subtotal` of `MeasurementSidebar.tsx`'s `calculateEstimate`:
material costs + labor + fuel (sealer gallons = `area * 0.13`, labor hours =
`Math.ceil(area / 1000)` at $12, fuel = 90 miles round trip at 8 mpg,
$3.50/gal). -/
def legacySubtotal (area : ℚ) : ℚ :=
  area * 0.13 * 3.65 + (⌈area * 0.13 / 50⌉ : ℚ) * 10 + (⌈area * 0.13 / 150⌉ : ℚ) * 50 +
    1 * 50 + (⌈ratSqrt area * 4 / 100⌉ : ℚ) * 44.99 + (⌈ratSqrt area * 4 / 200⌉ : ℚ) * 10 +
    (⌈area / 1000⌉ : ℚ) * 12 + 45 * 2 / 8 * 3.50

/-- The legacy `calculateEstimate` of `MeasurementSidebar.tsx`: flat material
formulas, `subtotal * 1.25`, round up to the nearest $10, then a further
`* 1.25`. -/
def legacyCalculateEstimate (area : ℚ) : EstimateData :=
  { area := area
    materials :=
      { sealer := { gallons := area * 0.13, cost := area * 0.13 * 3.65 }
        sand := { bags := (⌈area * 0.13 / 50⌉ : ℚ), cost := (⌈area * 0.13 / 50⌉ : ℚ) * 10 }
        fastDry := { buckets := (⌈area * 0.13 / 150⌉ : ℚ)
                     cost := (⌈area * 0.13 / 150⌉ : ℚ) * 50 }
        prepSeal := { buckets := 1, cost := 1 * 50 }
        crackFiller := { boxes := (⌈ratSqrt area * 4 / 100⌉ : ℚ)
                         cost := (⌈ratSqrt area * 4 / 100⌉ : ℚ) * 44.99 }
        propane := { tanks := (⌈ratSqrt area * 4 / 200⌉ : ℚ)
                     cost := (⌈ratSqrt area * 4 / 200⌉ : ℚ) * 10 } }
    labor := { hours := (⌈area / 1000⌉ : ℚ), cost := (⌈area / 1000⌉ : ℚ) * 12 }
    fuel := { distance := 45 * 2, cost := 45 * 2 / 8 * 3.50 }
    subtotal := legacySubtotal area
    markup25 := legacySubtotal area * 1.25
    roundedUp := (⌈legacySubtotal area * 1.25 / 10⌉ : ℚ) * 10
    finalTotal := (⌈legacySubtotal area * 1.25 / 10⌉ : ℚ) * 10 * 1.25 }

/-- A JSON value, as produced by `JSON.parse` (object fields in insertion
order). -/
inductive Json where
  | null : Json
  | bool (b : Bool) : Json
  | num (q : ℚ) : Json
  | str (s : String) : Json
  | arr (elems : List Json) : Json
  | obj (fields : List (String × Json)) : Json

/-- Set key `k` to `v` in an insertion-ordered JavaScript object: an existing
key keeps its position and gets the new value, a new key is appended. -/
def setKey : List (String × Json) → String → Json → List (String × Json)
  | [], k, v => [(k, v)]
  | (k', v') :: rest, k, v =>
    if k' = k then (k', v) :: rest else (k', v') :: setKey rest k v

/-- The object spread `{...target, ...source}`: every enumerable own property
of `source` is written into a copy of `target` in order.  Spreading an array
or a string contributes index-keyed entries; spreading `null`, a boolean or a
number contributes nothing. -/
def jsSpread (target : List (String × Json)) : Json → List (String × Json)
  | Json.obj kvs => kvs.foldl (fun acc kv => setKey acc kv.1 kv.2) target
  | Json.arr elems =>
    (elems.enum.map (fun p => (toString p.1, p.2))).foldl
      (fun acc kv => setKey acc kv.1 kv.2) target
  | Json.str s =>
    (s.data.enum.map (fun p => (toString p.1, Json.str (String.singleton p.2)))).foldl
      (fun acc kv => setKey acc kv.1 kv.2) target
  | _ => target

/-- `importRegionalPricing(jsonData)`, modelled after `JSON.parse`: the
`parsed` argument is `none` when `JSON.parse` throws (the `catch` block then
re-throws and `this.regionalPricing` is never assigned), and `some imported`
on parse success, in which case the engine unconditionally executes
`this.regionalPricing = { ...this.regionalPricing, ...imported }` — no shape
validation of any kind is performed on `imported`.  The catalog is given and
returned at the JavaScript-object level. -/
def importRegionalPricing (parsed : Option Json) (regionalPricing : List (String × Json)) :
    Except Unit (List (String × Json)) :=
  match parsed with
  | none => Except.error ()
  | some imported => Except.ok (jsSpread regionalPricing imported)

/-- Is the optional field a JSON number? -/
def isNumField (v : Option Json) : Bool :=
  match v with
  | some (Json.num _) => true
  | _ => false

/-- Is the optional field a JSON string? -/
def isStrField (v : Option Json) : Bool :=
  match v with
  | some (Json.str _) => true
  | _ => false

/-- Modelled from the spec: the shape check for one material entry of an
incoming `RegionalPricing` value (a unit price, a coverage/consumption ratio
and a supplier label) — the source performs no such validation, so this
checker follows §3/§6 of the spec ("each value matching the `RegionalPricing`
shape", "missing required keys must reject the whole document"). -/
def isValidMaterialSpec (priceKey ratioKey : String) : Json → Bool
  | Json.obj kvs =>
    isNumField (kvs.lookup priceKey) && isNumField (kvs.lookup ratioKey) &&
      isStrField (kvs.lookup "supplier")
  | _ => false

/-- Modelled from the spec: shape check for the `materials` entry (six named
material specs with their required fields). -/
def isValidMaterials : Json → Bool
  | Json.obj kvs =>
    (match kvs.lookup "sealer" with
      | some j => isValidMaterialSpec "pricePerGallon" "coverageRate" j
      | none => false) &&
    (match kvs.lookup "sand" with
      | some j => isValidMaterialSpec "pricePerBag" "bagsPerGallon" j
      | none => false) &&
    (match kvs.lookup "fastDry" with
      | some j => isValidMaterialSpec "pricePerBucket" "bucketsPerGallon" j
      | none => false) &&
    (match kvs.lookup "prepSeal" with
      | some j => isValidMaterialSpec "pricePerBucket" "bucketsPerProject" j
      | none => false) &&
    (match kvs.lookup "crackFiller" with
      | some j => isValidMaterialSpec "pricePerBox" "coveragePerBox" j
      | none => false) &&
    (match kvs.lookup "propane" with
      | some j => isValidMaterialSpec "pricePerTank" "tanksPerLinearFoot" j
      | none => false)
  | _ => false

/-- Modelled from the spec: shape check for the `labor` entry (required labor
fields of §3). -/
def isValidLabor : Json → Bool
  | Json.obj kvs =>
    isNumField (kvs.lookup "hourlyRate") && isNumField (kvs.lookup "hoursPerSqFt") &&
      isNumField (kvs.lookup "minimumHours") && isNumField (kvs.lookup "overtimeMultiplier") &&
      isStrField (kvs.lookup "skillLevel")
  | _ => false

/-- Modelled from the spec: shape check for the `fuel` entry. -/
def isValidFuel : Json → Bool
  | Json.obj kvs =>
    isNumField (kvs.lookup "pricePerGallon") && isNumField (kvs.lookup "mpg") &&
      isNumField (kvs.lookup "roundTripDistance")
  | _ => false

/-- Modelled from the spec: shape check for the `businessCosts` entry. -/
def isValidBusinessCosts : Json → Bool
  | Json.obj kvs =>
    isNumField (kvs.lookup "insuranceRate") && isNumField (kvs.lookup "equipmentDepreciation") &&
      isNumField (kvs.lookup "permitCosts")
  | _ => false

/-- Modelled from the spec: shape check for one imported `RegionalPricing`
value. -/
def isValidRegionalPricingJson : Json → Bool
  | Json.obj kvs =>
    isStrField (kvs.lookup "region") && isStrField (kvs.lookup "state") &&
      isNumField (kvs.lookup "taxRate") &&
      (match kvs.lookup "materials" with
        | some j => isValidMaterials j
        | none => false) &&
      (match kvs.lookup "labor" with
        | some j => isValidLabor j
        | none => false) &&
      (match kvs.lookup "fuel" with
        | some j => isValidFuel j
        | none => false) &&
      (match kvs.lookup "businessCosts" with
        | some j => isValidBusinessCosts j
        | none => false)
  | _ => false

/-- Modelled from the spec: the whole-document shape check that §6 requires
of the import operation — a JSON object keyed by region identifier, every value
matches the `RegionalPricing` shape. -/
def isValidRegionalPricingDoc : Json → Bool
  | Json.obj kvs => kvs.all (fun kv => isValidRegionalPricingJson kv.2)
  | _ => false

/-! ### Theorems

Batteries seals the rational-number operations against unfolding; concrete
evaluation by `decide` needs them reducible again. -/

attribute [local semireducible] Rat.mul Rat.add Rat.sub Rat.inv Rat.ofScientific

/-- Claim C9: a region string whose lowercased form is not a key of the
regional-pricing catalog makes `calculateDetailedEstimate` throw before any
quantity is computed: no `DetailedEstimate` (not even a partial one) is
produced and no default region is silently substituted. -/
theorem unknownRegion_throws (e : AdvancedCalculationEngine) (area : ℚ) (jt : JobType)
    (addr region : String) (ct : CustomerType) (now : ℚ)
    (h : e.regionalPricing.lookup (jsToLower region) = none) :
    calculateDetailedEstimate e area jt addr region ct now = none := by
  simp [calculateDetailedEstimate, h]

/-- Claim C9 witness: on the default engine, the unknown region `"Mars"`
(lowercased to `"mars"`) is not in the catalog and the call returns no
estimate. -/
theorem unknownRegion_throws_witness :
    calculationEngine.regionalPricing.lookup (jsToLower "Mars") = none ∧
      calculateDetailedEstimate calculationEngine 1000 .driveway "" "Mars" .residential 0 =
        none :=
  ⟨by decide, unknownRegion_throws calculationEngine 1000 .driveway "" "Mars" .residential 0
    (by decide)⟩

/-- Claim C1 counterexample: the source performs no area validation at all —
a call with `area = 0` (so `area ≤ 0`) on a known region runs the whole
calculation and returns a `DetailedEstimate` instead of raising an
`InvalidAreaError`. -/
theorem noInvalidAreaError_at_zero :
    (0 : ℚ) ≤ 0 ∧
      (calculateDetailedEstimate calculationEngine 0 .driveway "" "virginia" .residential
        0).isSome = true :=
  ⟨le_refl 0, by decide⟩

/-- Claim C1 amended: `calculateDetailedEstimate` validates only the region
key; for every area — non-positive included — and any known region it
computes and returns a `DetailedEstimate`. -/
theorem no_area_validation (e : AdvancedCalculationEngine) (area : ℚ) (jt : JobType)
    (addr region : String) (ct : CustomerType) (now : ℚ)
    (h : (e.regionalPricing.lookup (jsToLower region)).isSome = true) :
    (calculateDetailedEstimate e area jt addr region ct now).isSome = true := by
  simpa [calculateDetailedEstimate] using h

/-- Claim C1 amended witness: the default engine computes an estimate for the
negative area `-5` in the known region `"virginia"`. -/
theorem no_area_validation_witness :
    (calculationEngine.regionalPricing.lookup (jsToLower "virginia")).isSome = true ∧
      (calculateDetailedEstimate calculationEngine (-5) .driveway "" "virginia" .residential
        0).isSome = true :=
  ⟨by decide, no_area_validation calculationEngine (-5) .driveway "" "virginia" .residential 0
    (by decide)⟩

/-- Claim C5: in every estimate the engine produces,
`markupAmount = subtotal × markup`, `beforeTax = subtotal + markupAmount`,
`taxAmount = beforeTax × taxRate` (the regional rate),
`finalTotal = max(beforeTax + taxAmount, tier.minimumCharge)` — the minimum
charge applied after tax — and hence `finalTotal ≥ tier.minimumCharge`. -/
theorem pricing_identities (e : AdvancedCalculationEngine) (area : ℚ) (jt : JobType)
    (addr region : String) (ct : CustomerType) (now : ℚ) (est : DetailedEstimate)
    (h : calculateDetailedEstimate e area jt addr region ct now = some est) :
    est.pricing.markupAmount = est.pricing.subtotal * est.pricing.markup ∧
    est.pricing.beforeTax = est.pricing.subtotal + est.pricing.markupAmount ∧
    est.pricing.taxAmount = est.pricing.beforeTax * est.pricing.taxRate ∧
    est.pricing.finalTotal =
      max (est.pricing.beforeTax + est.pricing.taxAmount) (minimumChargeOf e.pricingTiers ct) ∧
    minimumChargeOf e.pricingTiers ct ≤ est.pricing.finalTotal := by
  unfold calculateDetailedEstimate at h
  cases hl : e.regionalPricing.lookup (jsToLower region) with
  | none => rw [hl] at h; cases h
  | some p =>
    rw [hl] at h
    cases h
    exact ⟨rfl, rfl, rfl, rfl, le_max_right _ _⟩

/-- Claim C5 witness: instance at the Virginia residential scenario,
exhibiting the minimum-charge floor `200 ≤ finalTotal`. -/
theorem pricing_identities_witness :
    minimumChargeOf calculationEngine.pricingTiers .residential ≤
      (computeEstimate virginiaPricing calculationEngine.pricingTiers 1000 .driveway ""
        .residential 0).pricing.finalTotal :=
  (pricing_identities calculationEngine 1000 .driveway "" "virginia" .residential 0
    (computeEstimate virginiaPricing calculationEngine.pricingTiers 1000 .driveway ""
      .residential 0) rfl).2.2.2.2

/-- Claim C7: insurance is computed on the pre-fuel, pre-equipment, pre-permit
base — `insurance.totalCost = (Σ material costs + labor cost) × insuranceRate`
— so changing the catalog's `equipmentDepreciation` or `permitCosts` (all else
fixed) leaves `expenses.insurance.totalCost` unchanged. -/
theorem insurance_base_exclusion (p : RegionalPricing) (tiers : PricingTiers) (area : ℚ)
    (jt : JobType) (addr : String) (ct : CustomerType) (now : ℚ) (e c : ℚ) :
    (computeEstimate
        { p with businessCosts :=
            { p.businessCosts with equipmentDepreciation := e, permitCosts := c } }
        tiers area jt addr ct now).expenses.insurance.totalCost =
      (computeEstimate p tiers area jt addr ct now).expenses.insurance.totalCost ∧
    (computeEstimate p tiers area jt addr ct now).expenses.insurance.totalCost =
      subtotalForExpenses p area * p.businessCosts.insuranceRate ∧
    subtotalForExpenses p area =
      materialsTotal (computeMaterials p area) + (computeLabor p area).totalCost :=
  ⟨rfl, rfl, rfl⟩

/-- Claim C8: `labor.hours = max(area × hoursPerSqFt, minimumHours)` with no
rounding, `labor.totalCost = hours × hourlyRate`, and whenever
`area × hoursPerSqFt < minimumHours` the floor wins exactly. -/
theorem labor_hours_formula (p : RegionalPricing) (tiers : PricingTiers) (area : ℚ)
    (jt : JobType) (addr : String) (ct : CustomerType) (now : ℚ) :
    (computeEstimate p tiers area jt addr ct now).labor.hours =
      max (area * p.labor.hoursPerSqFt) p.labor.minimumHours ∧
    (computeEstimate p tiers area jt addr ct now).labor.totalCost =
      (computeEstimate p tiers area jt addr ct now).labor.hours * p.labor.hourlyRate ∧
    (area * p.labor.hoursPerSqFt < p.labor.minimumHours →
      (computeEstimate p tiers area jt addr ct now).labor.hours = p.labor.minimumHours) :=
  ⟨rfl, rfl, fun h => max_eq_right (le_of_lt h)⟩

/-- Claim C8 witness: at 100 sq ft in Virginia, `0.1 < 2` so the two-hour
minimum is reported exactly. -/
theorem labor_hours_formula_witness :
    (100 : ℚ) * virginiaPricing.labor.hoursPerSqFt < virginiaPricing.labor.minimumHours ∧
      (computeEstimate virginiaPricing PRICING_TIERS 100 .driveway "" .residential
        0).labor.hours = virginiaPricing.labor.minimumHours :=
  ⟨by decide,
    (labor_hours_formula virginiaPricing PRICING_TIERS 100 .driveway "" .residential 0).2.2
      (by decide)⟩

/-- Everything in a `DetailedEstimate` except the two clock-derived fields
`projectInfo.estimateDate` and `projectInfo.validUntil`. -/
def nonTemporalPart (est : DetailedEstimate) :
    ℚ × JobType × String × String × MaterialsBreakdown × LaborBreakdown ×
      ExpensesBreakdown × PricingBreakdown × ProfitAnalysis :=
  (est.projectInfo.area, est.projectInfo.jobType, est.projectInfo.address,
    est.projectInfo.region, est.materials, est.labor, est.expenses, est.pricing,
    est.profitAnalysis)

/-- Claim C2 counterexample: the output embeds the wall clock — two calls with
identical arguments and catalog but made one millisecond apart differ (in
`projectInfo.estimateDate` and `projectInfo.validUntil`), so the output is not
byte-identical across successive calls. -/
theorem estimate_not_clock_independent :
    calculateDetailedEstimate calculationEngine 1000 .driveway "" "virginia" .residential 0 ≠
      calculateDetailedEstimate calculationEngine 1000 .driveway "" "virginia" .residential 1 :=
  by decide

/-- Claim C2 amended: for fixed arguments and fixed catalog state, every field
of the output except the two clock-derived timestamps
(`projectInfo.estimateDate`, `projectInfo.validUntil`) is identical across
calls; with the clock reading also fixed the whole output is identical. -/
theorem estimate_deterministic_up_to_timestamps (e : AdvancedCalculationEngine) (area : ℚ)
    (jt : JobType) (addr region : String) (ct : CustomerType) (t1 t2 : ℚ) :
    (calculateDetailedEstimate e area jt addr region ct t1).map nonTemporalPart =
      (calculateDetailedEstimate e area jt addr region ct t2).map nonTemporalPart := by
  unfold calculateDetailedEstimate
  cases e.regionalPricing.lookup (jsToLower region) with
  | none => rfl
  | some p => rfl

lemma lookup_setKey_self (cat : List (String × Json)) (k : String) (v : Json) :
    (setKey cat k v).lookup k = some v := by
  induction cat with
  | nil => simp [setKey, List.lookup]
  | cons hd tl ih =>
    obtain ⟨k₀, v₀⟩ := hd
    by_cases h : k₀ = k
    · subst h
      simp [setKey, List.lookup]
    · have hb : (k == k₀) = false := beq_eq_false_iff_ne.mpr (Ne.symm h)
      simp [setKey, h, List.lookup, hb, ih]

lemma lookup_setKey_other (cat : List (String × Json)) (k k' : String) (v : Json)
    (h : k' ≠ k) : (setKey cat k v).lookup k' = cat.lookup k' := by
  induction cat with
  | nil => simp [setKey, List.lookup, beq_eq_false_iff_ne.mpr h]
  | cons hd tl ih =>
    obtain ⟨k₀, v₀⟩ := hd
    by_cases h0 : k₀ = k
    · subst h0
      simp [setKey, List.lookup, beq_eq_false_iff_ne.mpr h]
    · by_cases h1 : k' = k₀
      · subst h1
        simp [setKey, h0, List.lookup]
      · simp [setKey, h0, List.lookup, beq_eq_false_iff_ne.mpr h1, ih]

/-- Claim C3 counterexample: a syntactically well-formed JSON document that
matches nothing of the required `RegionalPricing` shape (here
`{"bogus": null}`) is not rejected by `importRegionalPricing` — it is merged
into the catalog, which changes. -/
theorem import_accepts_invalid_doc :
    isValidRegionalPricingDoc (Json.obj [("bogus", Json.null)]) = false ∧
      importRegionalPricing (some (Json.obj [("bogus", Json.null)])) [] =
        Except.ok [("bogus", Json.null)] ∧
      ([("bogus", Json.null)] : List (String × Json)) ≠ [] :=
  ⟨rfl, rfl, by simp⟩

/-- Claim C3 amended: `importRegionalPricing` performs no shape validation:
every successfully parsed document — well-formed for the catalog or not — is
accepted and spread-merged into the catalog (an imported key overrides the
existing entry in place, a new key is appended, and other keys keep their
values); only a `JSON.parse` failure rejects, in which case the catalog field
is never assigned and remains unchanged. -/
theorem import_no_validation (cat : List (String × Json)) (j : Json) (k k' : String)
    (v : Json) (hne : k' ≠ k) :
    importRegionalPricing none cat = Except.error () ∧
      importRegionalPricing (some j) cat = Except.ok (jsSpread cat j) ∧
      (jsSpread cat (Json.obj [(k, v)])).lookup k = some v ∧
      (jsSpread cat (Json.obj [(k, v)])).lookup k' = cat.lookup k' :=
  ⟨rfl, rfl, lookup_setKey_self cat k v, lookup_setKey_other cat k k' v hne⟩

/-- Claim C3 amended witness: importing `{"virginia": null}` into a catalog
with keys `"virginia"` and `"north-carolina"` succeeds without validation,
clobbers the `"virginia"` entry and leaves `"north-carolina"` unchanged. -/
theorem import_no_validation_witness :
    importRegionalPricing (some (Json.obj [("virginia", Json.null)]))
        [("virginia", Json.obj []), ("north-carolina", Json.obj [])] =
      Except.ok [("virginia", Json.null), ("north-carolina", Json.obj [])] ∧
      (jsSpread [("virginia", Json.obj []), ("north-carolina", Json.obj [])]
        (Json.obj [("virginia", Json.null)])).lookup "north-carolina" =
        ([("virginia", Json.obj []), ("north-carolina", Json.obj [])] :
          List (String × Json)).lookup "north-carolina" :=
  ⟨(import_no_validation
      [("virginia", Json.obj []), ("north-carolina", Json.obj [])]
      (Json.obj [("virginia", Json.null)]) "virginia" "north-carolina" Json.null
      (by decide)).2.1,
    (import_no_validation
      [("virginia", Json.obj []), ("north-carolina", Json.obj [])]
      (Json.obj [("virginia", Json.null)]) "virginia" "north-carolina" Json.null
      (by decide)).2.2.2⟩

lemma applicableDiscount_spec (l : List VolumeDiscount) (area : ℚ) (d : VolumeDiscount)
    (h : applicableDiscount l area = some d) :
    d.threshold ≤ area ∧ d ∈ l ∧
      ∀ d' ∈ l, d'.threshold ≤ area → d'.threshold ≤ d.threshold := by
  unfold applicableDiscount at h
  cases hs : List.insertionSort byThresholdDesc
      (l.filter (fun d' => decide (d'.threshold ≤ area))) with
  | nil => rw [hs] at h; cases h
  | cons x xs =>
    rw [hs] at h
    simp only [List.head?] at h
    injection h with hxd
    rw [← hxd]
    have hperm := List.perm_insertionSort byThresholdDesc
      (l.filter (fun d' => decide (d'.threshold ≤ area)))
    have hsorted := List.sorted_insertionSort byThresholdDesc
      (l.filter (fun d' => decide (d'.threshold ≤ area)))
    rw [hs] at hperm hsorted
    have hmem : x ∈ l.filter (fun d' => decide (d'.threshold ≤ area)) :=
      hperm.subset (List.mem_cons_self x xs)
    have hx := List.of_mem_filter hmem
    simp only [decide_eq_true_eq] at hx
    refine ⟨hx, List.mem_of_mem_filter hmem, ?_⟩
    intro d' hd' hle
    have hd'f : d' ∈ l.filter (fun d'' => decide (d''.threshold ≤ area)) :=
      List.mem_filter.mpr ⟨hd', decide_eq_true hle⟩
    cases List.mem_cons.mp (hperm.symm.subset hd'f) with
    | inl he => exact he ▸ le_rfl
    | inr hxs => exact List.rel_of_sorted_cons hsorted d' hxs

/-- Claim C6: for non-residential customers with a qualifying volume discount,
`effectiveMarkup = tier.markup × (1 − d)` where `d` is the discount of a
highest threshold that `area` meets or exceeds (`≥` comparison); with no
qualifying threshold, or for residential customers, the base markup is
unchanged.  Concretely, commercial at 12000 sq ft (and exactly at the 10000
threshold) yields `0.20 × 0.90 = 0.18`. -/
theorem effectiveMarkup_spec (tiers : PricingTiers) (area : ℚ) (ct : CustomerType)
    (d : VolumeDiscount) :
    effectiveMarkup tiers .residential area = tiers.residential.markup ∧
    (applicableDiscount (volumeDiscountsOf tiers ct) area = none →
      effectiveMarkup tiers ct area = baseMarkupOf tiers ct) ∧
    (applicableDiscount (volumeDiscountsOf tiers ct) area = some d →
      effectiveMarkup tiers ct area = baseMarkupOf tiers ct * (1 - d.discount) ∧
      d.threshold ≤ area ∧ d ∈ volumeDiscountsOf tiers ct ∧
      ∀ d' ∈ volumeDiscountsOf tiers ct, d'.threshold ≤ area →
        d'.threshold ≤ d.threshold) ∧
    effectiveMarkup PRICING_TIERS .commercial 12000 = 0.18 ∧
    effectiveMarkup PRICING_TIERS .commercial 10000 = 0.18 := by
  refine ⟨rfl, ?_, ?_, by decide, by decide⟩
  · intro h
    cases ct with
    | residential => rfl
    | commercial =>
      simp only [effectiveMarkup, volumeDiscountsOf] at h ⊢
      rw [h]
      rfl
    | industrial =>
      simp only [effectiveMarkup, volumeDiscountsOf] at h ⊢
      rw [h]
      rfl
  · intro h
    have hspec := applicableDiscount_spec (volumeDiscountsOf tiers ct) area d h
    cases ct with
    | residential => simp [volumeDiscountsOf, applicableDiscount] at h
    | commercial =>
      simp only [volumeDiscountsOf] at h hspec
      exact ⟨by simp only [effectiveMarkup, baseMarkupOf]; rw [h], hspec⟩
    | industrial =>
      simp only [volumeDiscountsOf] at h hspec
      exact ⟨by simp only [effectiveMarkup, baseMarkupOf]; rw [h], hspec⟩

/-- Claim C6 witness: at 12000 sq ft the commercial tier's qualifying
discounts are 5% (5000) and 10% (10000); the 10000 threshold is selected and
the effective markup is `0.20 × (1 − 0.10)`. -/
theorem effectiveMarkup_spec_witness :
    applicableDiscount (volumeDiscountsOf PRICING_TIERS .commercial) 12000 =
        some { threshold := 10000, discount := 0.10 } ∧
      effectiveMarkup PRICING_TIERS .commercial 12000 =
        baseMarkupOf PRICING_TIERS .commercial * (1 - (0.10 : ℚ)) :=
  ⟨by decide,
    ((effectiveMarkup_spec PRICING_TIERS 12000 .commercial
      { threshold := 10000, discount := 0.10 }).2.2.1 (by decide)).1⟩

/-- Claim C10: `calculateQuickEstimate(area, region)` delegates to the
detailed engine — its `finalTotal` equals
`calculateDetailedEstimate(area, 'driveway', '', region, 'residential')
.pricing.finalTotal` — rather than using the legacy
flat-25%/round-to-$10/×1.25 formula of `MeasurementSidebar` (whose result
differs at 1000 sq ft); its `roundedUp` field is
`Math.ceil(beforeTax / 10) * 10` and does not feed `finalTotal`. -/
theorem quickEstimate_delegates (e : AdvancedCalculationEngine) (area : ℚ) (region : String)
    (now : ℚ) :
    (calculateQuickEstimate e area region now).map EstimateData.finalTotal =
      (calculateDetailedEstimate e area .driveway "" region .residential now).map
        (fun d => d.pricing.finalTotal) ∧
    (calculateQuickEstimate e area region now).map EstimateData.roundedUp =
      (calculateDetailedEstimate e area .driveway "" region .residential now).map
        (fun d => ((Int.ceil (d.pricing.beforeTax / 10) : ℤ) : ℚ) * 10) ∧
    (calculateQuickEstimate calculationEngine 1000 "virginia" 0).map EstimateData.finalTotal ≠
      some (legacyCalculateEstimate 1000).finalTotal := by
  refine ⟨?_, ?_, by decide⟩
  · unfold calculateQuickEstimate
    cases calculateDetailedEstimate e area .driveway "" region .residential now with
    | none => rfl
    | some d => rfl
  · unfold calculateQuickEstimate
    cases calculateDetailedEstimate e area .driveway "" region .residential now with
    | none => rfl
    | some d => rfl

lemma isqrtGo_spec (n : ℕ) : ∀ fuel k, k * k ≤ n → n < (k + fuel + 1) * (k + fuel + 1) →
    isqrtGo n fuel k * isqrtGo n fuel k ≤ n ∧
      n < (isqrtGo n fuel k + 1) * (isqrtGo n fuel k + 1) := by
  intro fuel
  induction fuel with
  | zero =>
    intro k hk hup
    simp only [isqrtGo]
    exact ⟨hk, by simpa using hup⟩
  | succ fuel ih =>
    intro k hk hup
    simp only [isqrtGo]
    split_ifs with hcond
    · apply ih (k + 1) hcond
      have he : k + 1 + fuel + 1 = k + (fuel + 1) + 1 := by omega
      rw [he]
      exact hup
    · exact ⟨hk, lt_of_not_le hcond⟩

lemma isqrt_spec (n : ℕ) : isqrt n * isqrt n ≤ n ∧ n < (isqrt n + 1) * (isqrt n + 1) := by
  have hup : n < (0 + n + 1) * (0 + n + 1) := by
    have h1 : n < n + 1 := Nat.lt_succ_self n
    have h2 : n + 1 ≤ (n + 1) * (n + 1) := Nat.le_mul_of_pos_left _ (Nat.succ_pos n)
    simpa using lt_of_lt_of_le h1 h2
  exact isqrtGo_spec n n 0 (by simp) hup

lemma isqrt_eq_sqrt (n : ℕ) : isqrt n = Nat.sqrt n := by
  obtain ⟨h1, h2⟩ := isqrt_spec n
  refine le_antisymm (Nat.le_sqrt.mpr h1) ?_
  exact Nat.lt_succ_iff.mp (Nat.sqrt_lt.mpr h2)

lemma ratSqrt_mono {a b : ℚ} (h : a ≤ b) : ratSqrt a ≤ ratSqrt b := by
  unfold ratSqrt
  rw [isqrt_eq_sqrt, isqrt_eq_sqrt]
  exact_mod_cast Nat.sqrt_le_sqrt (Int.toNat_le_toNat (Int.floor_le_floor h))

lemma ceilQ_mono {a b : ℚ} (h : a ≤ b) : ((⌈a⌉ : ℤ) : ℚ) ≤ ((⌈b⌉ : ℤ) : ℚ) := by
  exact_mod_cast Int.ceil_le_ceil h

lemma div_mono_nonneg {a b c : ℚ} (h : a ≤ b) (hc : 0 ≤ c) : a / c ≤ b / c := by
  rw [div_eq_mul_inv, div_eq_mul_inv]
  exact mul_le_mul_of_nonneg_right h (inv_nonneg.mpr hc)

/-- Nonnegativity of the catalog rates that feed the cost pipeline (true of
both default regions; area-monotonicity of the final total holds for any
catalog satisfying it). -/
def NonnegPricing (p : RegionalPricing) : Prop :=
  0 ≤ p.materials.sealer.pricePerGallon ∧ 0 ≤ p.materials.sealer.coverageRate ∧
  0 ≤ p.materials.sand.pricePerBag ∧ 0 ≤ p.materials.sand.bagsPerGallon ∧
  0 ≤ p.materials.fastDry.pricePerBucket ∧ 0 ≤ p.materials.fastDry.bucketsPerGallon ∧
  0 ≤ p.materials.crackFiller.pricePerBox ∧ 0 ≤ p.materials.crackFiller.coveragePerBox ∧
  0 ≤ p.materials.propane.pricePerTank ∧ 0 ≤ p.materials.propane.tanksPerLinearFoot ∧
  0 ≤ p.labor.hourlyRate ∧ 0 ≤ p.labor.hoursPerSqFt ∧
  0 ≤ p.businessCosts.insuranceRate ∧ 0 ≤ p.taxRate

lemma subtotalForExpenses_mono (p : RegionalPricing) (hp : NonnegPricing p) {a1 a2 : ℚ}
    (h : a1 ≤ a2) : subtotalForExpenses p a1 ≤ subtotalForExpenses p a2 := by
  obtain ⟨h1, h2, h3, h4, h5, h6, h7, h8, h9, h10, h11, h12, _, _⟩ := hp
  have hg : sealerGallons p a1 ≤ sealerGallons p a2 := div_mono_nonneg h h2
  have hper : estimatedPerimeter a1 ≤ estimatedPerimeter a2 :=
    mul_le_mul_of_nonneg_right (ratSqrt_mono h) (by norm_num)
  have hsealer : sealerGallons p a1 * p.materials.sealer.pricePerGallon ≤
      sealerGallons p a2 * p.materials.sealer.pricePerGallon :=
    mul_le_mul_of_nonneg_right hg h1
  have hsand : (⌈sealerGallons p a1 * p.materials.sand.bagsPerGallon⌉ : ℚ) *
      p.materials.sand.pricePerBag ≤
      (⌈sealerGallons p a2 * p.materials.sand.bagsPerGallon⌉ : ℚ) * p.materials.sand.pricePerBag :=
    mul_le_mul_of_nonneg_right (ceilQ_mono (mul_le_mul_of_nonneg_right hg h4)) h3
  have hfast : (⌈sealerGallons p a1 * p.materials.fastDry.bucketsPerGallon⌉ : ℚ) *
      p.materials.fastDry.pricePerBucket ≤
      (⌈sealerGallons p a2 * p.materials.fastDry.bucketsPerGallon⌉ : ℚ) *
        p.materials.fastDry.pricePerBucket :=
    mul_le_mul_of_nonneg_right (ceilQ_mono (mul_le_mul_of_nonneg_right hg h6)) h5
  have hcrack : (⌈estimatedPerimeter a1 / p.materials.crackFiller.coveragePerBox⌉ : ℚ) *
      p.materials.crackFiller.pricePerBox ≤
      (⌈estimatedPerimeter a2 / p.materials.crackFiller.coveragePerBox⌉ : ℚ) *
        p.materials.crackFiller.pricePerBox :=
    mul_le_mul_of_nonneg_right (ceilQ_mono (div_mono_nonneg hper h8)) h7
  have hprop : (⌈estimatedPerimeter a1 * p.materials.propane.tanksPerLinearFoot⌉ : ℚ) *
      p.materials.propane.pricePerTank ≤
      (⌈estimatedPerimeter a2 * p.materials.propane.tanksPerLinearFoot⌉ : ℚ) *
        p.materials.propane.pricePerTank :=
    mul_le_mul_of_nonneg_right (ceilQ_mono (mul_le_mul_of_nonneg_right hper h10)) h9
  have hlab : laborHours p a1 * p.labor.hourlyRate ≤ laborHours p a2 * p.labor.hourlyRate :=
    mul_le_mul_of_nonneg_right
      (max_le_max (mul_le_mul_of_nonneg_right h h12) le_rfl) h11
  exact add_le_add
    (add_le_add (add_le_add (add_le_add (add_le_add (add_le_add hsealer hsand) hfast)
      (le_refl (p.materials.prepSeal.bucketsPerProject * p.materials.prepSeal.pricePerBucket)))
      hcrack) hprop) hlab

lemma subtotal_mono (p : RegionalPricing) (hp : NonnegPricing p) {a1 a2 : ℚ}
    (h : a1 ≤ a2) : subtotal p a1 ≤ subtotal p a2 := by
  have hsfe : subtotalForExpenses p a1 ≤ subtotalForExpenses p a2 :=
    subtotalForExpenses_mono p hp h
  have hins : 0 ≤ p.businessCosts.insuranceRate := hp.2.2.2.2.2.2.2.2.2.2.2.2.1
  exact add_le_add (add_le_add (add_le_add (add_le_add hsfe le_rfl)
    (mul_le_mul_of_nonneg_right hsfe hins)) le_rfl) le_rfl

lemma computePricing_finalTotal_mono (p : RegionalPricing) (tiers : PricingTiers)
    (ct : CustomerType) (hp : NonnegPricing p) {a1 a2 : ℚ} (h12 : a1 ≤ a2)
    (hm : effectiveMarkup tiers ct a1 = effectiveMarkup tiers ct a2)
    (hm0 : 0 ≤ effectiveMarkup tiers ct a1) :
    (computePricing p tiers ct a1).finalTotal ≤ (computePricing p tiers ct a2).finalTotal := by
  have hS : subtotal p a1 ≤ subtotal p a2 := subtotal_mono p hp h12
  have ht : 0 ≤ p.taxRate := hp.2.2.2.2.2.2.2.2.2.2.2.2.2
  have hB : subtotal p a1 + subtotal p a1 * effectiveMarkup tiers ct a1 ≤
      subtotal p a2 + subtotal p a2 * effectiveMarkup tiers ct a1 :=
    add_le_add hS (mul_le_mul_of_nonneg_right hS hm0)
  have hT : (subtotal p a1 + subtotal p a1 * effectiveMarkup tiers ct a1) +
      (subtotal p a1 + subtotal p a1 * effectiveMarkup tiers ct a1) * p.taxRate ≤
      (subtotal p a2 + subtotal p a2 * effectiveMarkup tiers ct a1) +
        (subtotal p a2 + subtotal p a2 * effectiveMarkup tiers ct a1) * p.taxRate :=
    add_le_add hB (mul_le_mul_of_nonneg_right hB ht)
  have key : ∀ a, (computePricing p tiers ct a).finalTotal =
      max ((subtotal p a + subtotal p a * effectiveMarkup tiers ct a) +
        (subtotal p a + subtotal p a * effectiveMarkup tiers ct a) * p.taxRate)
        (minimumChargeOf tiers ct) := fun _ => rfl
  rw [key, key, ← hm]
  exact max_le_max hT le_rfl

/-- Claim C4 counterexample: with region, customer type, job type, address and
catalog fixed (Virginia, commercial), growing the area from 4999 to 5000 sq ft
crosses the 5% volume-discount threshold and the final total *decreases*
(≈ $3983.65 down to ≈ $3951.08): the subtotal grows by ≈ $0.50 while the
markup multiplier drops from 1.20 to 1.19. -/
theorem finalTotal_decreases_at_threshold :
    (4999 : ℚ) < 5000 ∧
      ((calculateDetailedEstimate calculationEngine 5000 .driveway "" "virginia" .commercial
          0).map (fun d => d.pricing.finalTotal)).getD 0 <
        ((calculateDetailedEstimate calculationEngine 4999 .driveway "" "virginia" .commercial
          0).map (fun d => d.pricing.finalTotal)).getD 0 :=
  ⟨by norm_num, by decide⟩

/-- Claim C4 amended: `finalTotal` is nondecreasing in area whenever the two
areas resolve to the same effective markup (in particular within one
volume-discount band, residential always); across a discount-threshold
crossing it can decrease (see the counterexample). -/
theorem finalTotal_mono (e : AdvancedCalculationEngine) (a1 a2 : ℚ) (jt : JobType)
    (addr region : String) (ct : CustomerType) (now : ℚ) (est1 est2 : DetailedEstimate)
    (h1 : calculateDetailedEstimate e a1 jt addr region ct now = some est1)
    (h2 : calculateDetailedEstimate e a2 jt addr region ct now = some est2)
    (hp : ∀ p, e.regionalPricing.lookup (jsToLower region) = some p → NonnegPricing p)
    (_ha : 0 < a1) (h12 : a1 ≤ a2)
    (hm : effectiveMarkup e.pricingTiers ct a1 = effectiveMarkup e.pricingTiers ct a2)
    (hm0 : 0 ≤ effectiveMarkup e.pricingTiers ct a1) :
    est1.pricing.finalTotal ≤ est2.pricing.finalTotal := by
  unfold calculateDetailedEstimate at h1 h2
  cases hl : e.regionalPricing.lookup (jsToLower region) with
  | none => rw [hl] at h1; cases h1
  | some p =>
    rw [hl] at h1 h2
    injection h1 with h1
    injection h2 with h2
    rw [← h1, ← h2]
    exact computePricing_finalTotal_mono p e.pricingTiers ct (hp p hl) h12 hm hm0

/-- Claim C4 amended witness: Virginia residential, areas 1000 and 2000 (same
markup band), final total does not decrease. -/
theorem finalTotal_mono_witness :
    NonnegPricing virginiaPricing ∧
      (computeEstimate virginiaPricing calculationEngine.pricingTiers 1000 .driveway ""
        .residential 0).pricing.finalTotal ≤
      (computeEstimate virginiaPricing calculationEngine.pricingTiers 2000 .driveway ""
        .residential 0).pricing.finalTotal :=
  ⟨by unfold NonnegPricing; decide,
    finalTotal_mono calculationEngine 1000 2000 .driveway "" "virginia" .residential 0 _ _
      rfl rfl
      (fun p h => by
        have hv : calculationEngine.regionalPricing.lookup (jsToLower "virginia") =
            some virginiaPricing := by decide
        rw [hv] at h
        exact (Option.some.inj h) ▸ (by unfold NonnegPricing; decide :
          NonnegPricing virginiaPricing))
      (by norm_num) (by norm_num) rfl (by decide)⟩

end PaveEstimator
